import Mathlib

/-!
Verification development for the atlaix bundle-detector core.

The TypeScript source is embedded shallowly:
* JS numbers are modelled as `ℚ` (all quantities in the programs are finite
  decimal values; no NaN/Infinity paths are exercised by the claims),
* JS `Set` objects are modelled as insertion-ordered duplicate-free
  `List String` values built with `setAdd`,
* network fetches are modelled as oracles (functions from an address to the
  response the provider would return), so every traced execution is a pure
  function of the seed inputs and the oracle.

Namespaces mirror the source modules: `moralisService`, `goPlus`,
`heliusService`, `alchemyService`, `scanEngine`.
-/

/-- JS `Set.add` on an insertion-ordered duplicate-free list. -/
def setAdd (s : List String) (a : String) : List String :=
  if s.contains a then s else s ++ [a]

namespace moralisService

/-- A normalized transfer/swap, same shape regardless of chain
    (source: `NormalizedTransfer` in moralisService). -/
structure NormalizedTransfer where
  txHash : String
  blockNumber : Nat
  buyerAddress : String
  sellerAddress : String
  tokenAmount : ℚ
  usdValue : ℚ
  transactionType : String
  deriving DecidableEq

/-- A normalized top-holder snapshot (source: `NormalizedHolder`). -/
structure NormalizedHolder where
  address : String
  balance : ℚ
  percentage : ℚ
  usdValue : ℚ
  deriving DecidableEq

/-- Normalized forensic data for one evaluation (source: `ForensicData`). -/
structure ForensicData where
  holders : List NormalizedHolder
  block0Transfers : List NormalizedTransfer
  earlyTransfers : List NormalizedTransfer
  creationBlock : Nat
  chain : String
  deriving DecidableEq

end moralisService

namespace goPlus

/-- Security-audit flags (source: `SecurityData` in goPlus).
    `buy_tax` and `sell_tax` are decimal strings in the source, read through
    `parseFloat` at every use site; they are modelled directly as `ℚ`. -/
structure SecurityData where
  is_honeypot : Bool
  is_mintable : Bool
  owner_address : String
  is_open_source : Bool
  buy_tax : ℚ
  sell_tax : ℚ
  cannot_sell_all : Bool
  is_proxy : Bool
  slippage_modifiable : Bool
  deriving DecidableEq

end goPlus

namespace scanEngine

open moralisService goPlus

/-- Zero-address constants (minting transactions); source: `ZERO_ADDRESSES`. -/
def ZERO_ADDRESSES : List String :=
  ["0x0000000000000000000000000000000000000000",
   "0x0000000000000000000000000000000000000001",
   "11111111111111111111111111111111",
   ""]

/-- Source: `isZeroAddress`. -/
def isZeroAddress (addr : String) : Bool := ZERO_ADDRESSES.contains addr

/-- Result of the forensic analyzer (source: interface `AnalysisResult`).
    `block0Buyers` is the JS `Set<string>` in insertion order. -/
structure AnalysisResult where
  sniperCount : Nat
  block0Volume : ℚ
  earlyVolume : ℚ
  bundleVolumeUSD : ℚ
  totalBundlePercentage : ℚ
  holdingConcentration : ℚ
  uniqueFundingSources : Nat
  hasBundleCluster : Bool
  block0Buyers : List String
  deriving DecidableEq

/-- The all-zero analysis result (source: local `empty` in `analyzeForensics`). -/
def emptyAnalysis : AnalysisResult :=
  { sniperCount := 0, block0Volume := 0, earlyVolume := 0, bundleVolumeUSD := 0
    totalBundlePercentage := 0, holdingConcentration := 0, uniqueFundingSources := 0
    hasBundleCluster := false, block0Buyers := [] }

/-- Accumulator of STEP 1 of `analyzeForensics` (block-0 buyers and volume). -/
structure Block0State where
  block0Buyers : List String
  block0Volume : ℚ
  deriving DecidableEq

/-- One iteration of the STEP 1 loop of `analyzeForensics`
    (`forensics.block0Transfers.forEach(...)`, lines 288-306). -/
def block0Step (isSolana : Bool) (priceUsd : ℚ) (st : Block0State)
    (tx : NormalizedTransfer) : Block0State :=
  if !isSolana && isZeroAddress tx.sellerAddress then st
  else if tx.buyerAddress == "" || isZeroAddress tx.buyerAddress then st
  else
    { block0Buyers := setAdd st.block0Buyers tx.buyerAddress
      block0Volume := st.block0Volume +
        (if 0 < tx.usdValue then tx.usdValue else tx.tokenAmount * priceUsd) }

/-- Accumulator of STEP 2 of `analyzeForensics` (early window statistics). -/
structure EarlyState where
  earlyVolume : ℚ
  earlyBuyers : List String
  fundingSources : List String
  deriving DecidableEq

/-- One iteration of the STEP 2 loop of `analyzeForensics`
    (`forensics.earlyTransfers.forEach(...)`, lines 313-332). -/
def earlyStep (isSolana : Bool) (priceUsd : ℚ) (st : EarlyState)
    (tx : NormalizedTransfer) : EarlyState :=
  if !isSolana && isZeroAddress tx.sellerAddress then st
  else if tx.buyerAddress == "" || isZeroAddress tx.buyerAddress then st
  else
    { earlyVolume := st.earlyVolume +
        (if 0 < tx.usdValue then tx.usdValue else tx.tokenAmount * priceUsd)
      earlyBuyers := setAdd st.earlyBuyers tx.buyerAddress
      fundingSources :=
        if tx.sellerAddress != "" && !isZeroAddress tx.sellerAddress then
          setAdd st.fundingSources tx.sellerAddress
        else st.fundingSources }

/-- JS `sourceToRecipients[seller].add(buyer)` on an insertion-ordered
    association list (source lines 356-364). -/
def insertRecipient : List (String × List String) → String → String →
    List (String × List String)
  | [], seller, buyer => [(seller, [buyer])]
  | (k, v) :: rest, seller, buyer =>
    if k == seller then (k, setAdd v buyer) :: rest
    else (k, v) :: insertRecipient rest seller buyer

/-- EVM fan-out bundle detection: one source address distributing to three or
    more distinct recipients in the early window (source lines 355-371). -/
def evmFanOut (txs : List NormalizedTransfer) : Bool :=
  (txs.foldl
    (fun m tx =>
      if !isZeroAddress tx.sellerAddress && tx.buyerAddress != "" &&
          !isZeroAddress tx.buyerAddress then
        insertRecipient m tx.sellerAddress tx.buyerAddress
      else m)
    []).any fun p => 3 ≤ p.2.length

/-- Forensic analysis, source: `analyzeForensics` (scanEngine lines 268-401). -/
def analyzeForensics (forensics : Option ForensicData) (priceUsd fdv : ℚ)
    (chainId : String) : AnalysisResult :=
  match forensics with
  | none => emptyAnalysis
  | some f =>
    let isSolana := chainId == "solana"
    let b0 := f.block0Transfers.foldl (block0Step isSolana priceUsd) ⟨[], 0⟩
    let e := f.earlyTransfers.foldl (earlyStep isSolana priceUsd) ⟨0, [], []⟩
    let hb : Bool × ℚ :=
      if isSolana then
        if 3 ≤ b0.block0Buyers.length then (true, b0.block0Volume)
        else if 5 ≤ e.earlyBuyers.length then (true, e.earlyVolume)
        else (false, b0.block0Volume)
      else (evmFanOut f.earlyTransfers, b0.block0Volume)
    let holdingConcentration := f.holders.foldl (fun acc h => acc + h.percentage) 0
    let totalBundlePercentage := if 0 < fdv then b0.block0Volume / fdv * 100 else 0
    let uniqueFundingSources :=
      if isSolana then e.earlyBuyers.length else e.fundingSources.length
    { sniperCount := b0.block0Buyers.length
      block0Volume := b0.block0Volume
      earlyVolume := e.earlyVolume
      bundleVolumeUSD := if hb.1 then hb.2 else b0.block0Volume
      totalBundlePercentage := totalBundlePercentage
      holdingConcentration := holdingConcentration
      uniqueFundingSources := uniqueFundingSources
      hasBundleCluster := hb.1
      block0Buyers := b0.block0Buyers }

/-- A scoring-rule verdict (source: `ScoreFactor` shape used by the breakdown). -/
inductive FactorStatus where
  | pass
  | warn
  | fail
  | info
  deriving DecidableEq

/-- One breakdown entry of the Scoring Engine. Detail strings keep the static
    part of the source message; runtime numeric interpolation is dropped. -/
structure ScoreFactor where
  label : String
  impact : ℤ
  status : FactorStatus
  detail : String
  deriving DecidableEq

/-- Fields of the bundle-control (cluster-labelling) result that the Scoring
    Engine reads. The producing module (bundleAnalyzer) is external to the
    scoring claims; `lpImpact` is the source field named lpImpactRatio. -/
structure BundleControlResult where
  clusterCount : Nat
  lpImpact : ℚ
  totalBundledSupplyPercent : ℚ
  deriving DecidableEq

/-- Fields of the `analysis` object that `calculateScore` reads (assembled in
    `runFullScan` lines 174-206 from the analyzer result). -/
structure AnalysisInput where
  bundleWalletCount : Nat
  block0Volume : ℚ
  holdingConcentration : ℚ
  deriving DecidableEq

/-- Projection of the analyzer result onto the fields consumed by
    `calculateScore` (source: `runFullScan` lines 174-206,
    `bundleWalletCount := sniperCount`). -/
def analysisOf (r : AnalysisResult) : AnalysisInput :=
  { bundleWalletCount := r.sniperCount
    block0Volume := r.block0Volume
    holdingConcentration := r.holdingConcentration }

/-- Scoring state: running score and breakdown accumulated in rule order. -/
abbrev ScoreState := ℤ × List ScoreFactor

/-- Mintable-supply rule (source lines 459-462). -/
def mintableRule (security : Option SecurityData) (st : ScoreState) : ScoreState :=
  if (security.elim false fun s => s.is_mintable) then
    (st.1 - 25, st.2 ++ [⟨"Mintable Supply", -25, .fail, "Owner can mint new tokens"⟩])
  else st

/-- Buy-tax rule (source lines 464-468). -/
def buyTaxRule (security : Option SecurityData) (st : ScoreState) : ScoreState :=
  if 10 < (security.elim 0 fun s => s.buy_tax) then
    (st.1 - 15, st.2 ++ [⟨"Buy Tax", -15, .fail, "tax on buys"⟩])
  else st

/-- Sell-tax rule (source lines 470-474). -/
def sellTaxRule (security : Option SecurityData) (st : ScoreState) : ScoreState :=
  if 10 < (security.elim 0 fun s => s.sell_tax) then
    (st.1 - 15, st.2 ++ [⟨"Sell Tax", -15, .fail, "tax on sells"⟩])
  else st

/-- Sell-restriction rule (source lines 476-479). -/
def sellRestrictionRule (security : Option SecurityData) (st : ScoreState) : ScoreState :=
  if (security.elim false fun s => s.cannot_sell_all) then
    (st.1 - 30, st.2 ++ [⟨"Sell Restriction", -30, .fail, "Cannot sell entire balance"⟩])
  else st

/-- Liquidity-depth tiers (source lines 482-493). -/
def liquidityRule (liquidityUsd : ℚ) (st : ScoreState) : ScoreState :=
  if liquidityUsd < 1000 then
    (st.1 - 40, st.2 ++ [⟨"Liquidity", -40, .fail, "critically low"⟩])
  else if liquidityUsd < 5000 then
    (st.1 - 25, st.2 ++ [⟨"Liquidity", -25, .warn, "low"⟩])
  else if liquidityUsd < 20000 then
    (st.1 - 10, st.2 ++ [⟨"Liquidity", -10, .warn, "moderate"⟩])
  else
    (st.1, st.2 ++ [⟨"Liquidity", 0, .pass, "healthy"⟩])

/-- Bundle-activity tiers (source lines 496-507). -/
def bundleActivityRule (bundleWalletCount : Nat) (st : ScoreState) : ScoreState :=
  if 10 < bundleWalletCount then
    (st.1 - 30, st.2 ++ [⟨"Bundle Activity", -30, .fail, "heavy coordination"⟩])
  else if 5 < bundleWalletCount then
    (st.1 - 15, st.2 ++ [⟨"Bundle Activity", -15, .warn, "moderate coordination"⟩])
  else if 2 < bundleWalletCount then
    (st.1 - 5, st.2 ++ [⟨"Bundle Activity", -5, .warn, "bundled wallets detected"⟩])
  else
    (st.1, st.2 ++ [⟨"Bundle Activity", 0, .pass,
      if 0 < bundleWalletCount then "minimal" else "No bundle activity detected"⟩])

/-- Launch-block-volume tiers (source lines 510-521). -/
def launchVolumeRule (block0Volume : ℚ) (st : ScoreState) : ScoreState :=
  if 50000 < block0Volume then
    (st.1 - 25, st.2 ++ [⟨"Launch Volume", -25, .fail, "massive launch buying"⟩])
  else if 10000 < block0Volume then
    (st.1 - 15, st.2 ++ [⟨"Launch Volume", -15, .warn, "high launch buying"⟩])
  else if 5000 < block0Volume then
    (st.1 - 10, st.2 ++ [⟨"Launch Volume", -10, .warn, "moderate launch buying"⟩])
  else
    (st.1, st.2 ++ [⟨"Launch Volume", 0, .pass,
      if 0 < block0Volume then "low" else "No launch block activity"⟩])

/-- Holder-concentration tiers (source lines 524-532). -/
def concentrationRule (holdingConcentration : ℚ) (st : ScoreState) : ScoreState :=
  if 80 < holdingConcentration then
    (st.1 - 20, st.2 ++ [⟨"Holder Concentration", -20, .fail, "very concentrated"⟩])
  else if 60 < holdingConcentration then
    (st.1 - 10, st.2 ++ [⟨"Holder Concentration", -10, .warn, "concentrated"⟩])
  else
    (st.1, st.2 ++ [⟨"Holder Concentration", 0, .pass, "distributed"⟩])

/-- LP-impact tiers of the deep-bundle block (source lines 537-548). -/
def lpImpactRule (r : ℚ) (st : ScoreState) : ScoreState :=
  if 1.5 < r then
    (st.1 - 20, st.2 ++ [⟨"LP Impact Ratio", -20, .fail, "bundled value far exceeds LP"⟩])
  else if 1.0 < r then
    (st.1 - 15, st.2 ++ [⟨"LP Impact Ratio", -15, .fail, "bundled value exceeds LP"⟩])
  else if 0.5 < r then
    (st.1 - 10, st.2 ++ [⟨"LP Impact Ratio", -10, .warn, "significant LP pressure risk"⟩])
  else
    (st.1, st.2 ++ [⟨"LP Impact Ratio", 0, .pass, "manageable LP impact"⟩])

/-- Bundled-supply tiers of the deep-bundle block (source lines 551-559);
    silent when the percent is zero or negative. -/
def bundledSupplyRule (p : ℚ) (st : ScoreState) : ScoreState :=
  if 30 < p then
    (st.1 - 15, st.2 ++ [⟨"Bundled Supply", -15, .fail, "supply held by bundle clusters"⟩])
  else if 10 < p then
    (st.1 - 8, st.2 ++ [⟨"Bundled Supply", -8, .warn, "supply in bundle clusters"⟩])
  else if 0 < p then
    (st.1, st.2 ++ [⟨"Bundled Supply", 0, .pass, "low bundled supply"⟩])
  else st

/-- Deep-bundle block guard (source line 535:
    `if (bundleControl && bundleControl.clusterCount > 0)`). -/
def clusterRules (bundleControl : Option BundleControlResult) (st : ScoreState) : ScoreState :=
  match bundleControl with
  | none => st
  | some bc =>
    if 0 < bc.clusterCount then
      bundledSupplyRule bc.totalBundledSupplyPercent (lpImpactRule bc.lpImpact st)
    else st

/-- The Scoring Engine, source: `calculateScore` (scanEngine lines 444-563). -/
def calculateScore (liquidityUsd : ℚ) (security : Option SecurityData)
    (analysis : AnalysisInput) (bundleControl : Option BundleControlResult) :
    ℤ × List ScoreFactor :=
  if (security.elim false fun s => s.is_honeypot) then
    (0, [⟨"Honeypot", -100, .fail, "Cannot sell — confirmed honeypot"⟩])
  else
    let st : ScoreState := (100, [])
    let st := mintableRule security st
    let st := buyTaxRule security st
    let st := sellTaxRule security st
    let st := sellRestrictionRule security st
    let st := liquidityRule liquidityUsd st
    let st := bundleActivityRule analysis.bundleWalletCount st
    let st := launchVolumeRule analysis.block0Volume st
    let st := concentrationRule analysis.holdingConcentration st
    let st := clusterRules bundleControl st
    (max 0 (min 100 st.1), st.2)

/-- Sum of the impact fields of a breakdown (statement apparatus for the
    score/breakdown bookkeeping invariant). -/
def sumImpacts (b : List ScoreFactor) : ℤ := (b.map fun f => f.impact).sum

/-- Risk-level banding (source: `runFullScan` lines 224-228). -/
inductive RiskLevel where
  | SAFE
  | CAUTION
  | DANGER
  | CRITICAL
  deriving DecidableEq

/-- Threat classification labels (source: `runFullScan` lines 212-221). -/
inductive ThreatType where
  | ORGANIC_GROWTH
  | ACCUMULATION_PHASE
  | DISTRIBUTION_PHASE
  | UNKNOWN
  deriving DecidableEq

/-- Forensic-enrichment status values (source: `runFullScan` line 66). -/
inductive ForensicsStatus where
  | SUCCESS
  | MISSING_KEY
  | NOT_SUPPORTED
  | ERROR
  deriving DecidableEq

/-- The risk-level banding applied to the live-scan score
    (source: `runFullScan` lines 224-228). -/
def riskLevelOf (score : ℤ) : RiskLevel :=
  if 80 ≤ score then .SAFE
  else if 50 ≤ score then .CAUTION
  else if 20 ≤ score then .DANGER
  else .CRITICAL

/-- Final scan result, restricted to the pure fields the claims mention.
    The presentational fields of the source record (pairs, wallets, analysis
    sub-record, lastUpdated timestamp) are omitted. -/
structure ScanResult where
  score : ℤ
  riskLevel : RiskLevel
  threatType : ThreatType
  marketCap : ℚ
  tokenName : String
  tokenSymbol : String
  priceUsd : ℚ
  chainId : String
  isBurned : Bool
  isLocked : Bool
  isSoledOld : Bool
  forensicsStatus : ForensicsStatus
  scoreBreakdown : List ScoreFactor
  deriving DecidableEq

/-- The token-not-found result, source: `buildEmptyResult` (lines 569-592). -/
def buildEmptyResult (query : String) : ScanResult :=
  { score := 0, riskLevel := .CAUTION, threatType := .UNKNOWN
    marketCap := 0, tokenName := query, tokenSymbol := "???"
    priceUsd := 0, chainId := "unknown"
    isBurned := false, isLocked := false, isSoledOld := false
    forensicsStatus := .MISSING_KEY, scoreBreakdown := [] }

end scanEngine

namespace heliusService

/-- One token movement inside a parsed transaction (source: `HeliusTokenTransfer`). -/
structure HeliusTokenTransfer where
  fromUserAccount : String
  toUserAccount : String
  tokenAmount : ℚ
  mint : String
  deriving DecidableEq

/-- One lamport movement inside a parsed transaction (source: `HeliusNativeTransfer`). -/
structure HeliusNativeTransfer where
  fromUserAccount : String
  toUserAccount : String
  amount : ℚ
  deriving DecidableEq

/-- A parsed transaction (source: `HeliusTransaction`). -/
structure HeliusTransaction where
  signature : String
  type : String
  source : String
  slot : Nat
  timestamp : ℚ
  feePayer : String
  tokenTransfers : List HeliusTokenTransfer
  nativeTransfers : List HeliusNativeTransfer
  deriving DecidableEq

/-- Best-guess funder of a wallet (source: `FundingSource`). -/
structure FundingSource where
  address : String
  amount : ℚ
  timestamp : ℚ
  isCex : Bool
  deriving DecidableEq

/-- A classified buy or sell record (source: the inline element type of
    `HeliusWalletData.buys` and `.sells`). -/
structure TokenEvent where
  tokenAmount : ℚ
  timestamp : ℚ
  deriving DecidableEq

/-- An outgoing token transfer record (source: the inline element type of
    `HeliusWalletData.outgoingTransfers`); `toAddr` is the source field `to`
    (a Lean keyword). -/
structure OutgoingTransfer where
  toAddr : String
  tokenAmount : ℚ
  timestamp : ℚ
  deriving DecidableEq

/-- An incoming token transfer record; `fromAddr` is the source field `from`
    (a Lean keyword). -/
structure IncomingTransfer where
  fromAddr : String
  tokenAmount : ℚ
  timestamp : ℚ
  deriving DecidableEq

/-- One wallet visited during a trace (source: `HeliusWalletData`). -/
structure HeliusWalletData where
  address : String
  buys : List TokenEvent
  sells : List TokenEvent
  outgoingTransfers : List OutgoingTransfer
  incomingTransfers : List IncomingTransfer
  currentBalance : ℚ
  isSeedWallet : Bool
  traceDepth : Nat
  fundingSource : Option FundingSource
  deriving DecidableEq

/-- Known infrastructure addresses excluded from distribution tracing
    (source: `EXCLUDED_ADDRESSES` in heliusService). -/
def EXCLUDED_ADDRESSES : List String :=
  ["11111111111111111111111111111111",
   "TokenkegQfeZyiNwAJbNbGKPFXCWuBvf9Ss623VQ5DA",
   "ATokenGPvbdGVxr1b2hvZbsiqW5xWH25efTNsLJA8knL",
   "So11111111111111111111111111111111111111112",
   "JUP6LkbZbjS1jKKwapdHNy74zcZ3tLUZoi5QNyVTaV4",
   "JUP4Fb2cqiRUcaTHdrPC8h2gNsA2ETXiPDD33WcGuJB",
   "whirLbMiicVdio4qvUfM5KAg6Ct8VwpYzGff3uctyCc",
   "675kPX9MHTjS2zt1qfr1NYHuzeLXfQM9H24wFSUt1Mp8",
   "5Q544fKrFoe6tsEbD7S8EmxGTJYAKtTVhAW5Q5pge4j1",
   "CAMMCzo5YL8w4VFF8KVHrK22GGUsp5VTaW7grrKgrWqK",
   "CPMMoo8L3F4NbTegBCKVNunggL7H1ZpdTHKxQB5qKP1C",
   "6EF8rrecthR5Dkzon8Nwu78hRvfCKubJ14M5uBEwF6P",
   "Ce6TQqeHC9p8KetsN6JsjHK7UTZk7nasjjQ7GWkRjQpM",
   "CebN5WGQ4jvEPvsVU4EoHEpgzq1VV7AbicfhtW4xC9iM",
   "39azUYFWPz3VHgKCf3VChUwbpURdCHRxjWVowf5jUJjg"]

/-- Known CEX hot wallets for funding classification
    (source: `KNOWN_CEX_ADDRESSES`). -/
def KNOWN_CEX_ADDRESSES : List String :=
  ["5tzFkiKscXHK5ZXCGbXZxdw7gTjjD1mBwuoFbhUvuAi9",
   "9WzDXwBbmkg8ZTbNMqUxvQRAyrZzDsGYdLVL9zYtAWWM",
   "53unSgGWqEWANcPYRF35B2Bgf8BkszUtcccKiXwGGLyr",
   "GJRs4FwHtemZ5ZE9x3FNvJ8TMwitKTh21yxdRPqn7npE",
   "2AQdpHJ2JpcEgPiATUXjQxA8QmafFegfBKCoF3gKsGb2",
   "6LY1JzAFVZsP2a2xKrtU6znQMQ5h4i7tocWdgrkZzkzF",
   "is6MTRHEgyFLNTfYcuV4QBWLjrZBfmhVNYR6ccgr8KV",
   "AC5RDfQFmDS1deWZos921JfqscXdByf8BKHm5xd8nudL",
   "5Q544fKrFoe6tsEbD7S8EmxGTJYAKtTVhAW5Q5pge4j1"]

/-- Source: `isExcludedAddress` (short or known infrastructure addresses). -/
def isExcludedAddress (addr : String) : Bool :=
  if addr == "" || addr.length < 20 then true
  else EXCLUDED_ADDRESSES.contains addr

/-- Classification of one parsed transaction into buy/sell records
    (source: `parseSwaps`, one `allTxs.forEach` iteration). -/
def parseSwapsStep (wallet mintAddress : String)
    (st : List TokenEvent × List TokenEvent) (tx : HeliusTransaction) :
    List TokenEvent × List TokenEvent :=
  if tx.tokenTransfers.length == 0 then st
  else if !(tx.type == "SWAP" || tx.type == "UNKNOWN" || tx.source == "PUMP_FUN") then st
  else
    tx.tokenTransfers.foldl
      (fun st tt =>
        if tt.mint != mintAddress then st
        else if tt.tokenAmount ≤ 0 then st
        else if tt.toUserAccount == wallet && tt.fromUserAccount != wallet then
          (st.1 ++ [⟨tt.tokenAmount, tx.timestamp⟩], st.2)
        else if tt.fromUserAccount == wallet && tt.toUserAccount != wallet then
          (st.1, st.2 ++ [⟨tt.tokenAmount, tx.timestamp⟩])
        else st)
      st

/-- Source: `parseSwaps`. -/
def parseSwaps (allTxs : List HeliusTransaction) (wallet mintAddress : String) :
    List TokenEvent × List TokenEvent :=
  allTxs.foldl (parseSwapsStep wallet mintAddress) ([], [])

/-- Classification of one parsed transaction into plain transfer records
    (source: `parseTransfers`, one `allTxs.forEach` iteration). -/
def parseTransfersStep (wallet mintAddress : String)
    (st : List OutgoingTransfer × List IncomingTransfer) (tx : HeliusTransaction) :
    List OutgoingTransfer × List IncomingTransfer :=
  if tx.tokenTransfers.length == 0 then st
  else
    tx.tokenTransfers.foldl
      (fun st tt =>
        if tt.mint != mintAddress then st
        else if tt.tokenAmount ≤ 0 then st
        else if tt.fromUserAccount == tt.toUserAccount then st
        else if isExcludedAddress tt.fromUserAccount || isExcludedAddress tt.toUserAccount then st
        else if tt.fromUserAccount == wallet then
          (st.1 ++ [⟨tt.toUserAccount, tt.tokenAmount, tx.timestamp⟩], st.2)
        else if tt.toUserAccount == wallet then
          (st.1, st.2 ++ [⟨tt.fromUserAccount, tt.tokenAmount, tx.timestamp⟩])
        else st)
      st

/-- Source: `parseTransfers`. -/
def parseTransfers (allTxs : List HeliusTransaction) (wallet mintAddress : String) :
    List OutgoingTransfer × List IncomingTransfer :=
  allTxs.foldl (parseTransfersStep wallet mintAddress) ([], [])

/-- A transaction carrying at least one incoming native transfer above the
    dust threshold (source: the filter inside `traceFundingSource`). -/
def isFundingTx (wallet : String) (tx : HeliusTransaction) : Bool :=
  tx.nativeTransfers.any fun nt =>
    nt.toUserAccount == wallet && decide (10000000 < nt.amount)

/-- Source: `txs.filter(...)` inside `traceFundingSource`. -/
def fundingFilter (wallet : String) (txs : List HeliusTransaction) :
    List HeliusTransaction :=
  txs.filter (isFundingTx wallet)

/-- Descending-timestamp comparison used by the in-place JS sort inside
    `traceFundingSource` (`(a, b) => b.timestamp - a.timestamp`). -/
def fundingDesc (a b : HeliusTransaction) : Prop := b.timestamp ≤ a.timestamp

instance : DecidableRel fundingDesc :=
  fun a b => inferInstanceAs (Decidable (b.timestamp ≤ a.timestamp))

instance : IsTotal HeliusTransaction fundingDesc :=
  ⟨fun a b => le_total b.timestamp a.timestamp⟩

instance : IsTrans HeliusTransaction fundingDesc :=
  ⟨fun _ _ _ h1 h2 => le_trans h2 h1⟩

/-- The 24-hour lookback window strictly before the first buy
    (source: the `find` predicate inside `traceFundingSource`). -/
def inWindow (firstBuyTimestamp : ℚ) (tx : HeliusTransaction) : Bool :=
  decide (tx.timestamp < firstBuyTimestamp) &&
    decide (firstBuyTimestamp - 86400 < tx.timestamp)

/-- Extraction of the reported funding transfer from the selected transaction:
    the first native transfer to the wallet, its sender tagged against
    `KNOWN_CEX_ADDRESSES` (source: `traceFundingSource` lines 1062-1074). -/
def extractFunding (wallet : String) (tx : HeliusTransaction) : Option FundingSource :=
  match tx.nativeTransfers.find? (fun nt => nt.toUserAccount == wallet) with
  | none => none
  | some t =>
    some { address := t.fromUserAccount, amount := t.amount, timestamp := tx.timestamp
           isCex := KNOWN_CEX_ADDRESSES.contains t.fromUserAccount }

/-- Funding-source inference (source: `traceFundingSource` lines 1034-1075).
    The JS in-place `sort` is stable (ES2019) and descending by timestamp; it
    is modelled by the stable `List.insertionSort` under `fundingDesc`. -/
def traceFundingSource (txs : List HeliusTransaction) (wallet : String)
    (firstBuyTimestamp : ℚ) : Option FundingSource :=
  let fundingTxs := fundingFilter wallet txs
  let sorted := fundingTxs.insertionSort fundingDesc
  let best : Option HeliusTransaction :=
    match sorted.find? (inWindow firstBuyTimestamp) with
    | some b => some b
    | none => sorted.getLast?
  match best with
  | none => none
  | some b => extractFunding wallet b

/-- Full per-wallet fetch (source: `fetchFullWalletData`). The two network
    reads are the oracles `oTx` (parsed transactions) and `oBal` (balance);
    `now` models `Date.now() / 1000`, used by the JS `||` fallback when there
    is no first buy or its timestamp is the falsy value 0. -/
def fetchFullWalletData (oTx : String → List HeliusTransaction)
    (oBal : String → ℚ) (now : ℚ) (wallet mintAddress : String)
    (isSeed : Bool) (depth : Nat) : HeliusWalletData :=
  let allTxs := oTx wallet
  let bs := parseSwaps allTxs wallet mintAddress
  let ts := parseTransfers allTxs wallet mintAddress
  let firstBuy : ℚ :=
    match bs.1 with
    | [] => now
    | b :: _ => if b.timestamp == 0 then now else b.timestamp
  { address := wallet, buys := bs.1, sells := bs.2
    outgoingTransfers := ts.1, incomingTransfers := ts.2
    currentBalance := oBal wallet, isSeedWallet := isSeed, traceDepth := depth
    fundingSource := traceFundingSource allTxs wallet firstBuy }

/-- Sub-wallet fetch (source: `fetchTransferWalletData`); identical to the
    full fetch except that the node is never marked as a seed. -/
def fetchTransferWalletData (oTx : String → List HeliusTransaction)
    (oBal : String → ℚ) (now : ℚ) (wallet mintAddress : String)
    (depth : Nat) : HeliusWalletData :=
  let allTxs := oTx wallet
  let bs := parseSwaps allTxs wallet mintAddress
  let ts := parseTransfers allTxs wallet mintAddress
  let firstBuy : ℚ :=
    match bs.1 with
    | [] => now
    | b :: _ => if b.timestamp == 0 then now else b.timestamp
  { address := wallet, buys := bs.1, sells := bs.2
    outgoingTransfers := ts.1, incomingTransfers := ts.2
    currentBalance := oBal wallet, isSeedWallet := false, traceDepth := depth
    fundingSource := traceFundingSource allTxs wallet firstBuy }

end heliusService

/-- Hard cap on the total number of traced wallets, shared by both tracers
    (source: `MAX_TOTAL_WALLETS` in heliusService and alchemyService). -/
def MAX_TOTAL_WALLETS : Nat := 400

/-- Accumulator of one trace: the `knownAddresses` set and the `results`
    array of both tracer main loops. -/
structure TraceState where
  known : List String
  results : List heliusService.HeliusWalletData
  deriving DecidableEq

/-- JS `array.slice(0, e)`: a negative end index counts from the end of the
    array, and any excess is clamped. -/
def jsSlice0 {α : Type} (l : List α) (e : ℤ) : List α :=
  l.take (if e < 0 then ((l.length : ℤ) + e).toNat else e.toNat)

/-- Level-0 loop shared by both tracers: visit every non-excluded seed,
    record it as known and push its fetched node. There is no cap check in
    this loop in either source file. -/
def seedLoop (excluded : String → Bool)
    (mk : String → heliusService.HeliusWalletData) (seeds : List String) :
    TraceState :=
  seeds.foldl
    (fun st w =>
      if excluded w then st
      else { known := setAdd st.known w, results := st.results ++ [mk w] })
    ⟨[], []⟩

/-- Collection of the next level of recipients: every distinct outgoing
    recipient of the given nodes that is neither known nor excluded, in
    first-discovery order (the JS `Set` insertion order). -/
def collectRecipients (excluded : String → Bool)
    (nodes : List heliusService.HeliusWalletData) (known : List String) :
    List String :=
  nodes.foldl
    (fun acc w =>
      w.outgoingTransfers.foldl
        (fun acc t =>
          if !known.contains t.toAddr && !excluded t.toAddr then setAdd acc t.toAddr
          else acc)
        acc)
    []

/-- Cap-guarded level loop shared by both tracers. The source `break` once
    `results.length >= MAX_TOTAL_WALLETS` is modelled as a guarded skip; the
    guard is monotone (the length never decreases), so once it fires every
    later iteration also skips and the two behaviours agree. -/
def cappedPush {ι : Type} (key : ι → String)
    (mk : ι → heliusService.HeliusWalletData) (arr : List ι) (st : TraceState) :
    TraceState :=
  arr.foldl
    (fun st x =>
      if MAX_TOTAL_WALLETS ≤ st.results.length then st
      else { known := setAdd st.known (key x), results := st.results ++ [mk x] })
    st

namespace heliusService

/-- The Solana distribution-tree trace (source: `traceDistributionTree`,
    heliusService lines 807-950). Network reads are the oracles `oTx`/`oBal`;
    an absent API key short-circuits the source to `[]` before any fetch and
    is not modelled. `batchGetBalances` fills a JS `Map` in batch order, so
    level 3 iterates `level3Array` in order with the balance oracle applied. -/
def traceDistributionTree (seedAddresses : List String) (mintAddress : String)
    (oTx : String → List HeliusTransaction) (oBal : String → ℚ) (now : ℚ) :
    List HeliusWalletData :=
  let st0 := seedLoop isExcludedAddress
    (fun w => fetchFullWalletData oTx oBal now w mintAddress true 0) seedAddresses
  let level1Addresses := collectRecipients isExcludedAddress st0.results st0.known
  let level1Array := jsSlice0 level1Addresses
    (min (level1Addresses.length : ℤ) ((MAX_TOTAL_WALLETS : ℤ) - st0.results.length))
  let st1 := cappedPush id
    (fun w => fetchTransferWalletData oTx oBal now w mintAddress 1) level1Array st0
  let level1Results := st1.results.filter fun r => r.traceDepth == 1
  let level2Addresses := collectRecipients isExcludedAddress level1Results st1.known
  let level2Array := jsSlice0 level2Addresses
    (min (level2Addresses.length : ℤ) ((MAX_TOTAL_WALLETS : ℤ) - st1.results.length))
  let st2 := cappedPush id
    (fun w => fetchTransferWalletData oTx oBal now w mintAddress 2) level2Array st1
  let level2Results := st2.results.filter fun r => r.traceDepth == 2
  let level3Addresses := collectRecipients isExcludedAddress level2Results st2.known
  let level3Array := jsSlice0 level3Addresses
    (min (level3Addresses.length : ℤ) ((MAX_TOTAL_WALLETS : ℤ) - st2.results.length))
  let level3Balances := level3Array.map fun a => (a, oBal a)
  let st3 := cappedPush Prod.fst
    (fun p =>
      { address := p.1, buys := [], sells := [], outgoingTransfers := []
        incomingTransfers := [], currentBalance := p.2, isSeedWallet := false
        traceDepth := 3, fundingSource := none })
    level3Balances st2
  st3.results

end heliusService

namespace alchemyService

open heliusService

/-- One ERC-20 transfer returned by the provider (source: `AlchemyTransfer`);
    `fromAddress` and `toAddr` are the source fields `from` and `to`
    (Lean keywords). -/
structure AlchemyTransfer where
  fromAddress : String
  toAddr : String
  value : ℚ
  hash : String
  blockNum : String
  deriving DecidableEq

/-- Excluded EVM infrastructure addresses (source: `EXCLUDED_ADDRESSES` in
    alchemyService). -/
def EXCLUDED_ADDRESSES : List String :=
  ["0x0000000000000000000000000000000000000000",
   "0x000000000000000000000000000000000000dead",
   "0x7a250d5630b4cf539739df2c5dacb4c659f2488d",
   "0x68b3465833fb72a70ecdf485e0e4c7bd8665fc45",
   "0x1111111254fb6c44bac0bed2854e76f90643097d",
   "0xdef1c0ded9bec7f1a1670819833240f027b25eff"]

/-- Source: `isExcluded` (case-insensitive set membership, no length check). -/
def isExcluded (addr : String) : Bool := EXCLUDED_ADDRESSES.contains addr.toLower

/-- Result shape of the EVM transfer classification. -/
structure ClassifiedTransfers where
  buys : List TokenEvent
  sells : List TokenEvent
  outgoingTransfers : List OutgoingTransfer
  incomingTransfers : List IncomingTransfer
  deriving DecidableEq

/-- Source: `classifyTransfers`; direction-only classification, buys and
    sells stay empty, timestamps are 0 in lightweight mode. -/
def classifyTransfers (transfers : List AlchemyTransfer) (wallet : String) :
    ClassifiedTransfers :=
  transfers.foldl
    (fun st t =>
      if t.fromAddress.toLower == wallet.toLower then
        { st with outgoingTransfers := st.outgoingTransfers ++ [⟨t.toAddr, t.value, 0⟩] }
      else
        { st with incomingTransfers := st.incomingTransfers ++ [⟨t.fromAddress, t.value, 0⟩] })
    ⟨[], [], [], []⟩

/-- Per-wallet EVM fetch (source: `fetchEvmWalletData`); the two network
    reads are the oracles `oTr` (asset transfers) and `oBal` (balance). -/
def fetchEvmWalletData (oTr : String → List AlchemyTransfer)
    (oBal : String → ℚ) (wallet : String) (isSeed : Bool) (depth : Nat) :
    HeliusWalletData :=
  let c := classifyTransfers (oTr wallet) wallet
  { address := wallet, buys := c.buys, sells := c.sells
    outgoingTransfers := c.outgoingTransfers, incomingTransfers := c.incomingTransfers
    currentBalance := oBal wallet, isSeedWallet := isSeed, traceDepth := depth
    fundingSource := none }

set_option linter.unusedVariables false in
/-- The EVM distribution-tree trace (source: `traceEvmDistributionTree`,
    alchemyService lines 1197-1304). `tokenAddress` and `chainId` only select
    the provider URL in the source and are kept for signature fidelity; an
    absent API key short-circuits the source to `[]` and is not modelled. -/
def traceEvmDistributionTree (seedAddresses : List String)
    (tokenAddress chainId : String) (oTr : String → List AlchemyTransfer)
    (oBal : String → ℚ) : List HeliusWalletData :=
  let st0 := seedLoop isExcluded (fun w => fetchEvmWalletData oTr oBal w true 0)
    seedAddresses
  let level1Addresses := collectRecipients isExcluded st0.results st0.known
  let level1Array := jsSlice0 level1Addresses
    ((MAX_TOTAL_WALLETS : ℤ) - st0.results.length)
  let st1 := cappedPush id (fun w => fetchEvmWalletData oTr oBal w false 1)
    level1Array st0
  let level1Results := st1.results.filter fun r => r.traceDepth == 1
  let level2Addresses := collectRecipients isExcluded level1Results st1.known
  let level2Array := jsSlice0 level2Addresses
    ((MAX_TOTAL_WALLETS : ℤ) - st1.results.length)
  let st2 := cappedPush id (fun w => fetchEvmWalletData oTr oBal w false 2)
    level2Array st1
  let level2Results := st2.results.filter fun r => r.traceDepth == 2
  let level3Addresses := collectRecipients isExcluded level2Results st2.known
  let level3Array := jsSlice0 level3Addresses
    ((MAX_TOTAL_WALLETS : ℤ) - st2.results.length)
  let level3Balances := level3Array.map fun a => (a, oBal a)
  let st3 := cappedPush Prod.fst
    (fun p =>
      { address := p.1, buys := [], sells := [], outgoingTransfers := []
        incomingTransfers := [], currentBalance := p.2, isSeedWallet := false
        traceDepth := 3, fundingSource := none })
    level3Balances st2
  st3.results

end alchemyService

/-- Concrete forensic fixture with two distinct launch-window buyers and five
    distinct early-window buyers, exercising the early-window bundle branch. -/
def earlyBundleFixture : moralisService.ForensicData :=
  { holders := []
    block0Transfers :=
      [⟨"h1", 0, "w1", "", 100, 10, "buy"⟩,
       ⟨"h2", 0, "w2", "", 100, 10, "buy"⟩]
    earlyTransfers :=
      [⟨"h1", 0, "w1", "", 100, 10, "buy"⟩,
       ⟨"h2", 0, "w2", "", 100, 10, "buy"⟩,
       ⟨"h3", 0, "w3", "", 100, 10, "buy"⟩,
       ⟨"h4", 0, "w4", "", 100, 10, "buy"⟩,
       ⟨"h5", 0, "w5", "", 100, 10, "buy"⟩]
    creationBlock := 0, chain := "solana" }

/-- Concrete transfer fixture: a zero-address seller with a valid buyer. -/
def zeroSellerFixture : moralisService.NormalizedTransfer :=
  ⟨"h", 0, "buyerX", "0x0000000000000000000000000000000000000000", 5, 7, "t"⟩

/-! ## Theorems -/

open scanEngine moralisService goPlus heliusService alchemyService

/-- A scoring rule preserves the bookkeeping relation between the running
    score and the accumulated breakdown impacts. -/
def PreservesGap (g : ScoreState → ScoreState) : Prop :=
  ∀ st, (g st).1 - sumImpacts (g st).2 = st.1 - sumImpacts st.2

lemma sumImpacts_append (b : List ScoreFactor) (f : ScoreFactor) :
    sumImpacts (b ++ [f]) = sumImpacts b + f.impact := by
  simp [sumImpacts]

lemma mintableRule_gap (security : Option SecurityData) :
    PreservesGap (mintableRule security) := by
  intro st
  unfold mintableRule
  split <;> simp [sumImpacts_append] <;> ring

lemma buyTaxRule_gap (security : Option SecurityData) :
    PreservesGap (buyTaxRule security) := by
  intro st
  unfold buyTaxRule
  split <;> simp [sumImpacts_append] <;> ring

lemma sellTaxRule_gap (security : Option SecurityData) :
    PreservesGap (sellTaxRule security) := by
  intro st
  unfold sellTaxRule
  split <;> simp [sumImpacts_append] <;> ring

lemma sellRestrictionRule_gap (security : Option SecurityData) :
    PreservesGap (sellRestrictionRule security) := by
  intro st
  unfold sellRestrictionRule
  split <;> simp [sumImpacts_append] <;> ring

lemma liquidityRule_gap (liquidityUsd : ℚ) :
    PreservesGap (liquidityRule liquidityUsd) := by
  intro st
  unfold liquidityRule
  split_ifs <;> simp [sumImpacts_append] <;> ring

lemma bundleActivityRule_gap (n : Nat) :
    PreservesGap (bundleActivityRule n) := by
  intro st
  unfold bundleActivityRule
  split_ifs <;> simp [sumImpacts_append] <;> ring

lemma launchVolumeRule_gap (v : ℚ) :
    PreservesGap (launchVolumeRule v) := by
  intro st
  unfold launchVolumeRule
  split_ifs <;> simp [sumImpacts_append] <;> ring

lemma concentrationRule_gap (c : ℚ) :
    PreservesGap (concentrationRule c) := by
  intro st
  unfold concentrationRule
  split_ifs <;> simp [sumImpacts_append] <;> ring

lemma lpImpactRule_gap (r : ℚ) :
    PreservesGap (lpImpactRule r) := by
  intro st
  unfold lpImpactRule
  split_ifs <;> simp [sumImpacts_append] <;> ring

lemma bundledSupplyRule_gap (p : ℚ) :
    PreservesGap (bundledSupplyRule p) := by
  intro st
  unfold bundledSupplyRule
  split_ifs <;> simp [sumImpacts_append] <;> ring

lemma clusterRules_gap (bundleControl : Option BundleControlResult) :
    PreservesGap (clusterRules bundleControl) := by
  intro st
  unfold clusterRules
  match bundleControl with
  | none => rfl
  | some bc =>
    simp only
    split
    · rw [bundledSupplyRule_gap, lpImpactRule_gap]
    · rfl

lemma scorePipeline_gap (liquidityUsd : ℚ) (security : Option SecurityData)
    (analysis : AnalysisInput) (bundleControl : Option BundleControlResult) (st : ScoreState) :
    (clusterRules bundleControl
      (concentrationRule analysis.holdingConcentration
        (launchVolumeRule analysis.block0Volume
          (bundleActivityRule analysis.bundleWalletCount
            (liquidityRule liquidityUsd
              (sellRestrictionRule security
                (sellTaxRule security
                  (buyTaxRule security
                    (mintableRule security st))))))))).1 -
      sumImpacts (clusterRules bundleControl
        (concentrationRule analysis.holdingConcentration
          (launchVolumeRule analysis.block0Volume
            (bundleActivityRule analysis.bundleWalletCount
              (liquidityRule liquidityUsd
                (sellRestrictionRule security
                  (sellTaxRule security
                    (buyTaxRule security
                      (mintableRule security st))))))))).2 =
      st.1 - sumImpacts st.2 := by
  rw [clusterRules_gap, concentrationRule_gap, launchVolumeRule_gap,
    bundleActivityRule_gap, liquidityRule_gap, sellRestrictionRule_gap,
    sellTaxRule_gap, buyTaxRule_gap, mintableRule_gap]

lemma calculateScore_fst_clamp (liquidityUsd : ℚ) (security : Option SecurityData)
    (analysis : AnalysisInput) (bundleControl : Option BundleControlResult) :
    (calculateScore liquidityUsd security analysis bundleControl).1 =
      max 0 (min 100
        (100 + sumImpacts (calculateScore liquidityUsd security analysis bundleControl).2)) := by
  unfold calculateScore
  split
  · simp [sumImpacts]
  · have h0 : sumImpacts ([] : List ScoreFactor) = 0 := rfl
    have h := scorePipeline_gap liquidityUsd security analysis bundleControl (100, [])
    dsimp only at h
    rw [h0] at h
    simp only []
    omega

/-- C10: for every input, the score returned by the Scoring Engine equals 100
    plus the sum of the impact fields of all breakdown entries, clamped to the
    interval from 0 to 100 — every deduction applied to the score is mirrored
    by a breakdown entry carrying the same impact. -/
theorem claimC10_score_is_clamped_impact_sum (liquidityUsd : ℚ)
    (security : Option SecurityData) (analysis : AnalysisInput)
    (bundleControl : Option BundleControlResult) :
    (calculateScore liquidityUsd security analysis bundleControl).1 =
      max 0 (min 100
        (100 + sumImpacts (calculateScore liquidityUsd security analysis bundleControl).2)) :=
  calculateScore_fst_clamp liquidityUsd security analysis bundleControl

/-- C1: for every combination of liquidity value, security flags, analysis
    snapshot and optional cluster-control input, the (integer-valued) score
    returned by the Scoring Engine lies in the closed interval from 0 to 100. -/
theorem claimC1_score_in_range (liquidityUsd : ℚ) (security : Option SecurityData)
    (analysis : AnalysisInput) (bundleControl : Option BundleControlResult) :
    0 ≤ (calculateScore liquidityUsd security analysis bundleControl).1 ∧
      (calculateScore liquidityUsd security analysis bundleControl).1 ≤ 100 := by
  rw [calculateScore_fst_clamp]
  omega

/-- C2: if the security audit reports a honeypot, the Scoring Engine returns
    score 0 and a breakdown with exactly one entry of impact minus 100; no
    other scoring rule contributes an entry. -/
theorem claimC2_honeypot_short_circuit (liquidityUsd : ℚ) (sec : SecurityData)
    (analysis : AnalysisInput) (bundleControl : Option BundleControlResult)
    (h : sec.is_honeypot = true) :
    calculateScore liquidityUsd (some sec) analysis bundleControl =
      (0, [⟨"Honeypot", -100, .fail, "Cannot sell — confirmed honeypot"⟩]) := by
  unfold calculateScore
  simp [h]

/-- Witness for C2 at a concrete honeypot security record. -/
theorem claimC2_honeypot_short_circuit_witness :
    calculateScore 5000
        (some ⟨true, true, "owner", false, 20, 20, true, false, false⟩)
        ⟨12, 60000, 85⟩ none =
      (0, [⟨"Honeypot", -100, .fail, "Cannot sell — confirmed honeypot"⟩]) :=
  claimC2_honeypot_short_circuit 5000
    ⟨true, true, "owner", false, 20, 20, true, false, false⟩ ⟨12, 60000, 85⟩ none rfl

/-- C9 counterexample: the token-not-found result carries score 0 with risk
    level CAUTION, while the banding maps score 0 to CRITICAL, so the risk
    level of this produced result is not determined by the fixed bands. -/
theorem claimC9_counterexample :
    (buildEmptyResult "token").score = 0 ∧
      (buildEmptyResult "token").riskLevel = RiskLevel.CAUTION ∧
      riskLevelOf 0 = RiskLevel.CRITICAL ∧
      RiskLevel.CAUTION ≠ RiskLevel.CRITICAL := by
  refine ⟨rfl, rfl, rfl, ?_⟩
  decide

/-- C9 (amended): every live-scan result has its risk level determined from
    the score by the fixed bands (at least 80 safe, 50 to 79 caution, 20 to 49
    danger, below 20 critical); the token-not-found empty result instead
    carries the fixed pair score 0 and risk level caution. -/
theorem claimC9_risk_bands (s : ℤ) :
    (80 ≤ s → riskLevelOf s = RiskLevel.SAFE) ∧
      (50 ≤ s → s < 80 → riskLevelOf s = RiskLevel.CAUTION) ∧
      (20 ≤ s → s < 50 → riskLevelOf s = RiskLevel.DANGER) ∧
      (s < 20 → riskLevelOf s = RiskLevel.CRITICAL) ∧
      ∀ query, (buildEmptyResult query).score = 0 ∧
        (buildEmptyResult query).riskLevel = RiskLevel.CAUTION := by
  refine ⟨?_, ?_, ?_, ?_, fun query => ⟨rfl, rfl⟩⟩ <;>
    (intros; unfold riskLevelOf; split_ifs <;> first | rfl | omega)

/-- Witness for C9 at one concrete score inside each band. -/
theorem claimC9_risk_bands_witness :
    riskLevelOf 85 = RiskLevel.SAFE ∧ riskLevelOf 55 = RiskLevel.CAUTION ∧
      riskLevelOf 25 = RiskLevel.DANGER ∧ riskLevelOf 5 = RiskLevel.CRITICAL ∧
      (buildEmptyResult "q").score = 0 ∧
      (buildEmptyResult "q").riskLevel = RiskLevel.CAUTION :=
  ⟨(claimC9_risk_bands 85).1 (by decide),
   (claimC9_risk_bands 55).2.1 (by decide) (by decide),
   (claimC9_risk_bands 25).2.2.1 (by decide) (by decide),
   (claimC9_risk_bands 5).2.2.2.1 (by decide),
   ((claimC9_risk_bands 0).2.2.2.2 "q").1,
   ((claimC9_risk_bands 0).2.2.2.2 "q").2⟩

/-- C7: when the upstream forensic snapshot is absent the Analyzer returns
    the all-zero LaunchSnapshot, and consequently the Scoring Engine
    bundle-activity, launch-volume and holder-concentration rules each take
    their zero-impact pass branch on its fields. -/
theorem claimC7_missing_forensics (priceUsd fdv : ℚ) (chainId : String)
    (st : ScoreState) :
    analyzeForensics none priceUsd fdv chainId = emptyAnalysis ∧
      bundleActivityRule
          (analysisOf (analyzeForensics none priceUsd fdv chainId)).bundleWalletCount st =
        (st.1, st.2 ++ [⟨"Bundle Activity", 0, .pass, "No bundle activity detected"⟩]) ∧
      launchVolumeRule
          (analysisOf (analyzeForensics none priceUsd fdv chainId)).block0Volume st =
        (st.1, st.2 ++ [⟨"Launch Volume", 0, .pass, "No launch block activity"⟩]) ∧
      concentrationRule
          (analysisOf (analyzeForensics none priceUsd fdv chainId)).holdingConcentration st =
        (st.1, st.2 ++ [⟨"Holder Concentration", 0, .pass, "distributed"⟩]) := by
  refine ⟨rfl, ?_, ?_, ?_⟩ <;>
    norm_num [analyzeForensics, emptyAnalysis, analysisOf, bundleActivityRule,
      launchVolumeRule, concentrationRule]

/-- C6: scenario A — three distinct non-zero buyers in the launch window,
    each transfer with tokenAmount 1000 and usdValue 0, at price 0.01 USD on
    a slot-model chain, yields launch volume 30 USD, a bundle-cluster verdict,
    and bundle volume 30 USD (the per-transfer volume falls back to
    tokenAmount times priceUsd when the provided USD value is not positive). -/
theorem claimC6_scenario_a :
    (fun r => (r.block0Volume, r.hasBundleCluster, r.bundleVolumeUSD))
      (analyzeForensics (some
        { holders := []
          block0Transfers :=
            [⟨"t1", 0, "buyer1", "", 1000, 0, "buy"⟩,
             ⟨"t2", 0, "buyer2", "", 1000, 0, "buy"⟩,
             ⟨"t3", 0, "buyer3", "", 1000, 0, "buy"⟩]
          earlyTransfers :=
            [⟨"t1", 0, "buyer1", "", 1000, 0, "buy"⟩,
             ⟨"t2", 0, "buyer2", "", 1000, 0, "buy"⟩,
             ⟨"t3", 0, "buyer3", "", 1000, 0, "buy"⟩]
          creationBlock := 0, chain := "solana" }) (1 / 100) 0 "solana") =
      (30, true, 30) := by
  simp [analyzeForensics, block0Step, earlyStep, setAdd, isZeroAddress,
    ZERO_ADDRESSES, emptyAnalysis]
  norm_num

/-- C5: on account-model (non-Solana) chains a transfer whose seller is a
    recognized zero/burn address is excluded from both the seed-buyer set and
    the volume totals; a transfer with an empty or zero-address buyer is
    always excluded on both chain families; on slot-model chains the seller
    filter does not apply — a zero-seller transfer with a valid buyer is
    counted in full. -/
theorem claimC5_transfer_exclusion (priceUsd : ℚ) (tx : NormalizedTransfer)
    (stB : Block0State) (stE : EarlyState) :
    (isZeroAddress tx.sellerAddress = true →
        block0Step false priceUsd stB tx = stB ∧
        earlyStep false priceUsd stE tx = stE) ∧
      (∀ isSolana : Bool,
        (tx.buyerAddress = "" ∨ isZeroAddress tx.buyerAddress = true) →
        block0Step isSolana priceUsd stB tx = stB ∧
        earlyStep isSolana priceUsd stE tx = stE) ∧
      (isZeroAddress tx.sellerAddress = true →
        isZeroAddress tx.buyerAddress = false →
        block0Step true priceUsd stB tx =
          ⟨setAdd stB.block0Buyers tx.buyerAddress,
           stB.block0Volume +
             (if 0 < tx.usdValue then tx.usdValue else tx.tokenAmount * priceUsd)⟩) := by
  refine ⟨?_, ?_, ?_⟩
  · intro h
    constructor <;> simp [block0Step, earlyStep, h]
  · intro isSolana h
    have hb : (tx.buyerAddress == "" || isZeroAddress tx.buyerAddress) = true := by
      rcases h with h | h <;> simp [h]
    constructor
    · unfold block0Step
      split
      · rfl
      · simp [hb]
    · unfold earlyStep
      split
      · rfl
      · simp [hb]
  · intro hs hbz
    have hne : (tx.buyerAddress == "") = false := by
      by_cases hb : tx.buyerAddress = ""
      · rw [hb] at hbz
        simp [isZeroAddress, ZERO_ADDRESSES] at hbz
      · simp [hb]
    simp [block0Step, hne, hbz]

/-- C4: slot-model (Solana) bundle-cluster verdict — at least 3 distinct
    filtered launch-window buyers trigger the cluster, attributing the
    launch-window volume; otherwise at least 5 distinct early-window buyers
    (returned as uniqueFundingSources on slot-model chains) trigger it,
    attributing the early-window volume; otherwise no cluster and the bundle
    volume equals the launch-window volume. -/
theorem claimC4_solana_bundle_verdict (forensics : Option ForensicData)
    (priceUsd fdv : ℚ) :
    (3 ≤ (analyzeForensics forensics priceUsd fdv "solana").sniperCount →
        (analyzeForensics forensics priceUsd fdv "solana").hasBundleCluster = true ∧
        (analyzeForensics forensics priceUsd fdv "solana").bundleVolumeUSD =
          (analyzeForensics forensics priceUsd fdv "solana").block0Volume) ∧
      ((analyzeForensics forensics priceUsd fdv "solana").sniperCount < 3 →
        5 ≤ (analyzeForensics forensics priceUsd fdv "solana").uniqueFundingSources →
        (analyzeForensics forensics priceUsd fdv "solana").hasBundleCluster = true ∧
        (analyzeForensics forensics priceUsd fdv "solana").bundleVolumeUSD =
          (analyzeForensics forensics priceUsd fdv "solana").earlyVolume) ∧
      ((analyzeForensics forensics priceUsd fdv "solana").sniperCount < 3 →
        (analyzeForensics forensics priceUsd fdv "solana").uniqueFundingSources < 5 →
        (analyzeForensics forensics priceUsd fdv "solana").hasBundleCluster = false ∧
        (analyzeForensics forensics priceUsd fdv "solana").bundleVolumeUSD =
          (analyzeForensics forensics priceUsd fdv "solana").block0Volume) := by
  cases forensics with
  | none =>
    refine ⟨fun h3 => absurd h3 (by simp [analyzeForensics, emptyAnalysis]),
            fun h3 h5 => absurd h5 (by simp [analyzeForensics, emptyAnalysis]),
            fun _ _ => by simp [analyzeForensics, emptyAnalysis]⟩
  | some f =>
    simp only [analyzeForensics, beq_self_eq_true, eq_self_iff_true, if_true]
    refine ⟨fun h3 => ?_, fun h3 h5 => ?_, fun h3 h5 => ?_⟩ <;>
      split_ifs with h1 h2 <;> simp_all <;> omega

/-- Witness for C4 on concrete data hitting the early-window bundle branch. -/
theorem claimC4_solana_bundle_verdict_witness :
    (analyzeForensics (some earlyBundleFixture) 1 0 "solana").hasBundleCluster = true ∧
      (analyzeForensics (some earlyBundleFixture) 1 0 "solana").bundleVolumeUSD =
        (analyzeForensics (some earlyBundleFixture) 1 0 "solana").earlyVolume :=
  (claimC4_solana_bundle_verdict (some earlyBundleFixture) 1 0).2.1
    (by decide) (by decide)

/-- Witness for C5 on a concrete zero-seller transfer. -/
theorem claimC5_transfer_exclusion_witness :
    (block0Step false 2 ⟨[], 0⟩ zeroSellerFixture = ⟨[], 0⟩ ∧
      earlyStep false 2 ⟨0, [], []⟩ zeroSellerFixture = ⟨0, [], []⟩) ∧
      block0Step true 2 ⟨[], 0⟩ zeroSellerFixture =
        ⟨setAdd ([] : List String) "buyerX",
         0 + (if 0 < zeroSellerFixture.usdValue then zeroSellerFixture.usdValue
              else zeroSellerFixture.tokenAmount * 2)⟩ :=
  ⟨(claimC5_transfer_exclusion 2 zeroSellerFixture ⟨[], 0⟩ ⟨0, [], []⟩).1 (by decide),
   (claimC5_transfer_exclusion 2 zeroSellerFixture ⟨[], 0⟩ ⟨0, [], []⟩).2.2
     (by decide) (by decide)⟩

lemma seedLoop_go_length (excluded : String → Bool)
    (mk : String → HeliusWalletData) :
    ∀ (seeds : List String) (st : TraceState),
      (seeds.foldl
        (fun st w =>
          if excluded w then st
          else { known := setAdd st.known w, results := st.results ++ [mk w] })
        st).results.length ≤ st.results.length + seeds.length := by
  intro seeds
  induction seeds with
  | nil => intro st; simp
  | cons a t ih =>
    intro st
    simp only [List.foldl_cons, List.length_cons]
    split
    · exact le_trans (ih st) (by omega)
    · exact le_trans (ih _) (by simp; omega)

lemma seedLoop_length (excluded : String → Bool)
    (mk : String → HeliusWalletData) (seeds : List String) :
    (seedLoop excluded mk seeds).results.length ≤ seeds.length := by
  have h := seedLoop_go_length excluded mk seeds ⟨[], []⟩
  simpa [seedLoop] using h

lemma cappedPush_length {ι : Type} (key : ι → String)
    (mk : ι → HeliusWalletData) :
    ∀ (arr : List ι) (st : TraceState),
      (cappedPush key mk arr st).results.length ≤
        max st.results.length MAX_TOTAL_WALLETS := by
  intro arr
  induction arr with
  | nil => intro st; simp [cappedPush]
  | cons a t ih =>
    intro st
    unfold cappedPush at ih ⊢
    simp only [List.foldl_cons]
    split
    · exact le_trans (ih st) (by omega)
    · have h := ih { known := setAdd st.known (key a), results := st.results ++ [mk a] }
      simp only [List.length_append, List.length_singleton] at h
      have hlt : st.results.length < MAX_TOTAL_WALLETS := by omega
      exact le_trans h (by omega)

lemma cappedPush_le_cap {ι : Type} (key : ι → String)
    (mk : ι → HeliusWalletData) (arr : List ι) (st : TraceState)
    (h : st.results.length ≤ MAX_TOTAL_WALLETS) :
    (cappedPush key mk arr st).results.length ≤ MAX_TOTAL_WALLETS :=
  le_trans (cappedPush_length key mk arr st) (by omega)

/-- C3 counterexample: with 401 (non-excluded) seed addresses the level-0
    loop, which performs no cap check, emits 401 nodes, exceeding the
    400-node cap claimed for every list of seed addresses. -/
theorem claimC3_cap_exceeded :
    400 < (traceDistributionTree (List.replicate 401 "AAAAAAAAAAAAAAAAAAAA") "t"
      (fun _ => []) (fun _ => 0) 0).length := by
  set_option maxRecDepth 40000 in decide

/-- C3 (amended): whenever the seed list has at most 400 entries, both
    distribution-tree tracers return at most 400 wallet nodes; the cap is
    enforced globally across hop levels 1 to 3, whose loops never push a node
    once the running total has reached the cap. -/
theorem claimC3_trace_cap (seedAddresses : List String)
    (mintAddress : String) (oTx : String → List HeliusTransaction)
    (oBal : String → ℚ) (now : ℚ) (tokenAddress chainId : String)
    (oTr : String → List AlchemyTransfer) (oBalE : String → ℚ)
    (h : seedAddresses.length ≤ 400) :
    (traceDistributionTree seedAddresses mintAddress oTx oBal now).length ≤ 400 ∧
      (traceEvmDistributionTree seedAddresses tokenAddress chainId oTr oBalE).length ≤ 400 := by
  have hM : MAX_TOTAL_WALLETS = 400 := rfl
  constructor
  · unfold traceDistributionTree
    simp only []
    rw [← hM]
    apply cappedPush_le_cap
    apply cappedPush_le_cap
    apply cappedPush_le_cap
    exact le_trans (seedLoop_length _ _ _) (by rw [hM]; exact h)
  · unfold traceEvmDistributionTree
    simp only []
    rw [← hM]
    apply cappedPush_le_cap
    apply cappedPush_le_cap
    apply cappedPush_le_cap
    exact le_trans (seedLoop_length _ _ _) (by rw [hM]; exact h)

/-- Witness for C3 on the empty seed list. -/
theorem claimC3_trace_cap_witness :
    (traceDistributionTree [] "m" (fun _ => []) (fun _ => 0) 0).length ≤ 400 ∧
      (traceEvmDistributionTree [] "t" "ethereum" (fun _ => [])
        (fun _ => 0)).length ≤ 400 :=
  claimC3_trace_cap [] "m" (fun _ => []) (fun _ => 0) 0 "t" "ethereum"
    (fun _ => []) (fun _ => 0) (by decide)

lemma mem_of_getLastQ {α : Type} :
    ∀ (l : List α) (b : α), l.getLast? = some b → b ∈ l := by
  intro l
  induction l with
  | nil => intro b hb; simp at hb
  | cons a t ih =>
    intro b hb
    cases t with
    | nil =>
      simp at hb
      simp [hb]
    | cons c u =>
      rw [List.getLast?_cons_cons] at hb
      exact List.mem_cons_of_mem a (ih b hb)

lemma find_max_of_sorted :
    ∀ (l : List HeliusTransaction) (b : HeliusTransaction)
      (p : HeliusTransaction → Bool),
      l.Sorted fundingDesc → l.find? p = some b → ∀ x ∈ l, p x = true →
        x.timestamp ≤ b.timestamp := by
  intro l
  induction l with
  | nil => intro b p _ hb; simp at hb
  | cons a t ih =>
    intro b p hs hb x hx hpx
    rw [List.sorted_cons] at hs
    by_cases hpa : p a = true
    · rw [List.find?_cons_of_pos _ hpa] at hb
      injection hb with hb
      subst hb
      rcases List.mem_cons.mp hx with rfl | hxt
      · exact le_refl _
      · exact hs.1 x hxt
    · rw [List.find?_cons_of_neg _ hpa] at hb
      rcases List.mem_cons.mp hx with rfl | hxt
      · exact absurd hpx hpa
      · exact ih b p hs.2 hb x hxt hpx

lemma getLast_min_of_sorted :
    ∀ (l : List HeliusTransaction) (b : HeliusTransaction),
      l.Sorted fundingDesc → l.getLast? = some b →
        ∀ x ∈ l, b.timestamp ≤ x.timestamp := by
  intro l
  induction l with
  | nil => intro b _ hb; simp at hb
  | cons a t ih =>
    intro b hs hb x hx
    rw [List.sorted_cons] at hs
    cases t with
    | nil =>
      simp at hb hx
      subst hb
      subst hx
      exact le_refl _
    | cons c u =>
      rw [List.getLast?_cons_cons] at hb
      have hbm : b ∈ c :: u := mem_of_getLastQ _ b hb
      rcases List.mem_cons.mp hx with rfl | hxt
      · exact hs.1 b hbm
      · exact ih b hs.2 hb x hxt

lemma extractFunding_isCex (wallet : String) (b : HeliusTransaction)
    (fs : FundingSource) (h : extractFunding wallet b = some fs) :
    fs.isCex = KNOWN_CEX_ADDRESSES.contains fs.address := by
  unfold extractFunding at h
  rcases hnt : b.nativeTransfers.find? (fun nt => nt.toUserAccount == wallet)
    with _ | t
  · rw [hnt] at h
    exact absurd h (by simp)
  · rw [hnt] at h
    injection h with h
    subst h
    rfl

/-- C8 (amended): the funding-source inference filters the wallet's history to
    transactions carrying an incoming native transfer above the dust
    threshold; among these it selects the most recent one whose timestamp is
    strictly before the first buy and within the 24-hour lookback, falling
    back to the earliest filtered transaction; the reported funding transfer
    is the first native transfer to the wallet inside the selected transaction
    — which may itself be at or below the dust threshold — and its sender is
    marked as a known exchange exactly when it belongs to the static
    exchange-address set. -/
theorem claimC8_funding_selection (txs : List HeliusTransaction)
    (wallet : String) (fb : ℚ) :
    (fundingFilter wallet txs = [] →
        traceFundingSource txs wallet fb = none) ∧
      (∀ fs, traceFundingSource txs wallet fb = some fs →
        fs.isCex = KNOWN_CEX_ADDRESSES.contains fs.address) ∧
      ((∃ tx ∈ fundingFilter wallet txs, inWindow fb tx = true) →
        ∃ tx ∈ fundingFilter wallet txs, inWindow fb tx = true ∧
          (∀ t2 ∈ fundingFilter wallet txs, inWindow fb t2 = true →
            t2.timestamp ≤ tx.timestamp) ∧
          traceFundingSource txs wallet fb = extractFunding wallet tx) ∧
      (fundingFilter wallet txs ≠ [] →
        (∀ tx ∈ fundingFilter wallet txs, inWindow fb tx = false) →
        ∃ tx ∈ fundingFilter wallet txs,
          (∀ t2 ∈ fundingFilter wallet txs, tx.timestamp ≤ t2.timestamp) ∧
          traceFundingSource txs wallet fb = extractFunding wallet tx) := by
  have hsorted :
      (List.insertionSort fundingDesc (fundingFilter wallet txs)).Sorted fundingDesc :=
    List.sorted_insertionSort fundingDesc _
  refine ⟨?_, ?_, ?_, ?_⟩
  · intro h
    simp [traceFundingSource, h]
  · intro fs hfs
    simp only [traceFundingSource] at hfs
    rcases hfind : List.find? (inWindow fb)
        (List.insertionSort fundingDesc (fundingFilter wallet txs)) with _ | b
    · rw [hfind] at hfs
      rcases hlast : (List.insertionSort fundingDesc
          (fundingFilter wallet txs)).getLast? with _ | b
      · rw [hlast] at hfs
        exact absurd hfs (by simp)
      · rw [hlast] at hfs
        exact extractFunding_isCex wallet b fs hfs
    · rw [hfind] at hfs
      exact extractFunding_isCex wallet b fs hfs
  · rintro ⟨tx0, htx0, hwin0⟩
    have hmem0 : tx0 ∈ List.insertionSort fundingDesc (fundingFilter wallet txs) :=
      (List.mem_insertionSort _).mpr htx0
    rcases hfind : List.find? (inWindow fb)
        (List.insertionSort fundingDesc (fundingFilter wallet txs)) with _ | b
    · exact absurd hwin0 (by simpa using List.find?_eq_none.mp hfind tx0 hmem0)
    · refine ⟨b, (List.mem_insertionSort _).mp (List.mem_of_find?_eq_some hfind),
        List.find?_some hfind, ?_, ?_⟩
      · intro t2 ht2 hw2
        exact find_max_of_sorted _ b _ hsorted hfind t2
          ((List.mem_insertionSort _).mpr ht2) hw2
      · simp only [traceFundingSource, hfind]
  · intro hne hall
    have hfind : List.find? (inWindow fb)
        (List.insertionSort fundingDesc (fundingFilter wallet txs)) = none :=
      List.find?_eq_none.mpr fun x hx => by
        rw [hall x ((List.mem_insertionSort _).mp hx)]
        simp
    have hslen : List.insertionSort fundingDesc (fundingFilter wallet txs) ≠ [] := by
      intro hnil
      rcases List.exists_mem_of_ne_nil _ hne with ⟨x, hxm⟩
      have hxs : x ∈ List.insertionSort fundingDesc (fundingFilter wallet txs) :=
        (List.mem_insertionSort _).mpr hxm
      rw [hnil] at hxs
      exact absurd hxs (List.not_mem_nil x)
    rcases hlast : (List.insertionSort fundingDesc
        (fundingFilter wallet txs)).getLast? with _ | b
    · rw [List.getLast?_eq_none_iff] at hlast
      exact absurd hlast hslen
    · refine ⟨b, (List.mem_insertionSort _).mp (mem_of_getLastQ _ b hlast), ?_, ?_⟩
      · intro t2 ht2
        exact getLast_min_of_sorted _ b hsorted hlast t2
          ((List.mem_insertionSort _).mpr ht2)
      · simp only [traceFundingSource, hfind, hlast]

/-- Witness for C8 on an empty history. -/
theorem claimC8_funding_selection_witness :
    traceFundingSource [] "w" 0 = none :=
  (claimC8_funding_selection [] "w" 0).1 rfl

/-- C8 counterexample: in a transaction whose native transfers list a dust
    transfer to the wallet ahead of the qualifying transfer, selection happens
    at transaction granularity and the reported funding transfer is the dust
    transfer of amount 5000000 lamports — at most the dust threshold of
    10000000 — contradicting a selection made among transfers above the dust
    threshold. -/
theorem claimC8_counterexample :
    traceFundingSource
        [{ signature := "s", type := "TRANSFER", source := "SYSTEM", slot := 1
           timestamp := 500, feePayer := "A", tokenTransfers := []
           nativeTransfers := [⟨"A", "w", 5000000⟩, ⟨"B", "w", 20000000⟩] }]
        "w" 1000 =
      some ⟨"A", 5000000, 500, false⟩ ∧ (5000000 : ℚ) ≤ 10000000 := by
  constructor
  · have h1 : ¬ ((10000000 : ℚ) < 5000000) := by norm_num
    have h2 : (10000000 : ℚ) < 20000000 := by norm_num
    have h3 : (500 : ℚ) < 1000 := by norm_num
    have h4 : (1000 : ℚ) - 86400 < 500 := by norm_num
    simp [traceFundingSource, fundingFilter, isFundingTx, inWindow, extractFunding,
      KNOWN_CEX_ADDRESSES, h1, h2, h3, h4]
  · norm_num
